import Mathlib

/-!
Verification development for the router configuration manager
(domain model, intent-to-command compiler, post-apply verification engine,
and VLSM subnet allocator).

The definitions below are a shallow embedding of the Python source:
  - src/model/interface.py     (normalize_iface)
  - src/model/subnetting.py    (Subnetting.generate_subnetting)
  - src/model/device.py        (Device.config, Device.verify_config_applied)
  - src/model/router.py        (Router.config, Router.verify_config_applied)
  - src/model/routing_process.py (OSPF.update, RoutingProcess.update)

Machine-level conventions: IPv4 addresses are natural numbers below 2^32;
Python exceptions (KeyError, ValueError, IndexError) are modelled by
`Except String`; Python dicts used as sparse change-intents are modelled by
a structure of `Option` fields; the external ConfigParsedView collaborator
(CiscoConfParse) is modelled at its boundary as a list of blocks, each a
header line with child lines, with the anchored literal regex queries the
source performs modelled as token-sequence matchers.
-/

deriving instance DecidableEq for Except

/-! ## String and token helpers -/

/-- Whitespace characters as matched by a regex `\s` in the configuration
text handled by the source (spaces and tabs). -/
def wsChar (c : Char) : Bool := c = ' ' || c = '\t'

/-- Word characters for a regex `\b` boundary test. -/
def isWordChar (c : Char) : Bool := c.isAlphanum || c = '_'

/-- Drop leading whitespace (regex `\s*`). -/
def dropWS (s : List Char) : List Char := s.dropWhile wsChar

/-- Consume an exact literal from the front of a character list. -/
def eatLit : List Char → List Char → Option (List Char)
  | [], s => some s
  | _ :: _, [] => none
  | c :: cs, d :: ds => if c = d then eatLit cs ds else none

/-- Consume at least one whitespace character, then any further whitespace
(regex `\s+`). -/
def reqWS : List Char → Option (List Char)
  | [] => none
  | c :: cs => if wsChar c then some (dropWS cs) else none

/-- End-of-pattern modes for the anchored regexes used by the source:
`\s*$`, a `\b` boundary, or no trailing anchor. -/
inductive EndMode where
  | ws
  | bound
  | any
deriving DecidableEq

/-- Test the residual input against the end anchor. -/
def endOk : EndMode → List Char → Bool
  | .ws, s => s.all wsChar
  | .bound, [] => true
  | .bound, c :: _ => !(isWordChar c)
  | .any, _ => true

/-- Consume `\s+tok` repeatedly for the remaining pattern tokens. -/
def patTail : List String → List Char → Option (List Char)
  | [], s => some s
  | t :: ts, s =>
    match reqWS s with
    | none => none
    | some s1 =>
      match eatLit t.data s1 with
      | none => none
      | some s2 => patTail ts s2

/-- Matcher for the anchored literal regexes of the source: an optional
leading `\s*` (for child-line patterns), escaped literal tokens separated
by `\s+`, and a trailing anchor. -/
def patMatch (lead : Bool) (toks : List String) (em : EndMode) (line : String) : Bool :=
  let s0 := if lead then dropWS line.data else line.data
  match toks with
  | [] => endOk em s0
  | t :: ts =>
    match eatLit t.data s0 with
    | none => false
    | some s1 =>
      match patTail ts s1 with
      | none => false
      | some rest => endOk em rest

/-- The canonical line denoted by a token pattern: the tokens joined by
single spaces. -/
def lineOfToks : List String → String
  | [] => ""
  | [t] => t
  | t :: ts => t ++ " " ++ lineOfToks ts

/-- Substring test on character lists (Python `in` on strings). -/
def startsWithL : List Char → List Char → Bool
  | [], _ => true
  | _ :: _, [] => false
  | c :: cs, d :: ds => c = d && startsWithL cs ds

/-- Python `needle in haystack` for strings. -/
def isSubstrOf (needle haystack : List Char) : Bool :=
  match haystack with
  | [] => needle.isEmpty
  | _ :: rest => startsWithL needle haystack || isSubstrOf needle rest

/-- Python `needle in haystack` lifted to `String`. -/
def strContains (haystack needle : String) : Bool :=
  isSubstrOf needle.data haystack.data

/-- Decimal digit character. -/
def digitChar (d : Nat) : Char := Char.ofNat (48 + d)

/-- Decimal digits of a natural number, most significant first
(fuel-based recursion on the first argument). -/
def natDigitsAux : Nat → Nat → List Char → List Char
  | 0, _, acc => acc
  | fuel + 1, n, acc =>
    if n < 10 then digitChar n :: acc
    else natDigitsAux fuel (n / 10) (digitChar (n % 10) :: acc)

/-- Decimal rendering of a natural number, as produced by a Python
f-string interpolation of an `int`. -/
def natStr (n : Nat) : String := String.mk (natDigitsAux (n + 1) n [])

/-- A string with no whitespace characters (a single regex token). -/
def wsFree (s : String) : Bool := s.data.all (fun c => !(wsChar c))

/-- Split a character list at every occurrence of a separator
(Python `str.split(sep)` for a one-character separator). -/
def splitOnCharAux (sep : Char) : List Char → List Char → List (List Char)
  | [], acc => [acc.reverse]
  | c :: cs, acc =>
    if c = sep then acc.reverse :: splitOnCharAux sep cs []
    else splitOnCharAux sep cs (c :: acc)

/-- Split a string at a one-character separator. -/
def splitOnChar (sep : Char) (s : String) : List String :=
  (splitOnCharAux sep s.data []).map String.mk

/-- Numeric value of a digit string (`int(s)` on a digits-only string). -/
def digitsVal (cs : List Char) : Nat := cs.foldl (fun n c => n * 10 + (c.toNat - 48)) 0

/-- Python `str.lower()`. -/
def pyLower (s : String) : String := String.mk (s.data.map Char.toLower)

/-- Python `str.strip()`. -/
def pyStrip (s : String) : String :=
  String.mk (((s.data.dropWhile wsChar).reverse.dropWhile wsChar).reverse)

/-- Python `str.replace(" ", "")`. -/
def removeSpaces (s : String) : String := String.mk (s.data.filter (fun c => c ≠ ' '))

/-- Python `str.replace("^", "")`. -/
def stripCarets (s : String) : String := String.mk (s.data.filter (fun c => c ≠ '^'))

/-- Python `str.startswith(pre)`. -/
def strStartsWith (s pre : String) : Bool := startsWithL pre.data s.data

/-- Drop the first `n` characters of a string. -/
def strDrop (s : String) (n : Nat) : String := String.mk (s.data.drop n)

/-- Length of a string in characters. -/
def strLen (s : String) : Nat := s.data.length

/-! ## IPv4 addresses and networks (the `ipaddress` collaborator) -/

/-- An IPv4 network: base address (a natural number below `2^32`) and
prefix length, as held by a Python `IPv4Network`. -/
structure Net where
  addr : Nat
  pLen : Nat
deriving DecidableEq, Repr

/-- Dotted-quad netmask value of a prefix length. -/
def maskOfLen (p : Nat) : Nat := 2 ^ 32 - 2 ^ (32 - p)

/-- Host-mask (wildcard) value of a prefix length. -/
def hostMaskOfLen (p : Nat) : Nat := 2 ^ (32 - p) - 1

/-- Number of addresses in a network of the given prefix length. -/
def sizeOfLen (p : Nat) : Nat := 2 ^ (32 - p)

/-- Parse one dotted-quad octet the way Python `ipaddress` does
(digits only, no leading zeros, value at most 255). -/
def parseOctet (s : String) : Option Nat :=
  match s.data with
  | [] => none
  | c :: cs =>
    if (c :: cs).all Char.isDigit then
      if c = '0' ∧ cs ≠ [] then none
      else if digitsVal (c :: cs) ≤ 255 then some (digitsVal (c :: cs)) else none
    else none

/-- Parse a dotted-quad IPv4 address to its numeric value. -/
def parseIPv4 (s : String) : Option Nat :=
  match (splitOnChar '.' s).mapM parseOctet with
  | some [a, b, c, d] => some (a * 16777216 + b * 65536 + c * 256 + d)
  | _ => none

/-- Recover a prefix length from a dotted netmask value, if contiguous. -/
def lenOfMask (m : Nat) : Option Nat :=
  (List.range 33).find? (fun p => maskOfLen p = m)

/-- Dotted-quad rendering of an address value (`IPv4Address.exploded`). -/
def ipToStr (n : Nat) : String :=
  natStr (n / 16777216 % 256) ++ "." ++ natStr (n / 65536 % 256) ++ "."
    ++ natStr (n / 256 % 256) ++ "." ++ natStr (n % 256)

/-- `IPv4Network(s, strict=...)`: accepts `A.B.C.D`, `A.B.C.D/p`,
`A.B.C.D/netmask` and `A.B.C.D/hostmask`; with `strict` it rejects set
host bits, otherwise it masks them away. Failure models `ValueError`. -/
def parseNet (s : String) (strict : Bool) : Except String Net :=
  let finish : Nat → Nat → Except String Net := fun ip p =>
    if strict then
      if ip % sizeOfLen p = 0 then Except.ok ⟨ip, p⟩
      else Except.error ("ValueError: " ++ s ++ " has host bits set")
    else Except.ok ⟨ip - ip % sizeOfLen p, p⟩
  match splitOnChar '/' s with
  | [a] =>
    match parseIPv4 a with
    | some ip => Except.ok ⟨ip, 32⟩
    | none => Except.error ("ValueError: " ++ s ++ " does not appear to be an IPv4 network")
  | [a, m] =>
    match parseIPv4 a with
    | none => Except.error ("ValueError: " ++ s ++ " does not appear to be an IPv4 network")
    | some ip =>
      if m.data ≠ [] ∧ m.data.all Char.isDigit then
        if digitsVal m.data ≤ 32 then finish ip (digitsVal m.data)
        else Except.error ("ValueError: " ++ s ++ " has an invalid netmask")
      else
        match parseIPv4 m with
        | none => Except.error ("ValueError: " ++ s ++ " has an invalid netmask")
        | some mv =>
          match lenOfMask mv with
          | some p => finish ip p
          | none =>
            match lenOfMask (2 ^ 32 - 1 - mv) with
            | some p => finish ip p
            | none => Except.error ("ValueError: " ++ s ++ " has an invalid netmask")
  | _ => Except.error ("ValueError: " ++ s ++ " does not appear to be an IPv4 network")

/-! ## Interface name normalization (src/model/interface.py) -/

/-- `ALIAS_MAP` together with the alternation order of `_iface_re`. -/
def aliasTable : List (String × String) :=
  [("gigabitethernet", "GigabitEthernet"), ("gi", "GigabitEthernet"), ("g", "GigabitEthernet"),
   ("fastethernet", "FastEthernet"), ("fa", "FastEthernet"), ("f", "FastEthernet"),
   ("ethernet", "Ethernet"), ("eth", "Ethernet"), ("e", "Ethernet")]

/-- Nonempty all-digit string (regex `\d+`). -/
def allDigits (s : String) : Bool := s.data ≠ [] && s.data.all Char.isDigit

/-- The physical-id-plus-optional-subinterface part of `_iface_re`:
`\d+(?:/\d+)*(?:\.\d+)?` as a full match. -/
def ifaceIdOk (s : String) : Bool :=
  match splitOnChar '.' s with
  | [a] => (splitOnChar '/' a).all allDigits
  | [a, b] => (splitOnChar '/' a).all allDigits && allDigits b
  | _ => false

/-- `normalize_iface`: lowercase, strip and remove spaces, then expand a
recognized Ethernet-family alias to its canonical full name; other names
are returned as sanitized. -/
def normalize_iface (name : String) : String :=
  let s := removeSpaces (pyLower (pyStrip name))
  match aliasTable.find? (fun p => strStartsWith s p.1 && ifaceIdOk (strDrop s (strLen p.1))) with
  | some p => p.2 ++ strDrop s (strLen p.1)
  | none => s

/-! ## VLSM subnet allocator (src/model/subnetting.py) -/

/-- The `Subnetting` input: `info["network"]` and `info["list_num_devices"]`. -/
structure Subnetting where
  network : Net
  list_num_devices : List Nat

/-- One pass of the source's manual insertion sort: insert a
(index, demand) pair into a descending-by-demand list, after any
equal-demand entries (stability). -/
def insDesc (key : Nat × Nat) : List (Nat × Nat) → List (Nat × Nat)
  | [] => [key]
  | x :: xs => if x.2 < key.2 then key :: x :: xs else x :: insDesc key xs

/-- The source's insertion sort: demands paired with their original
indices, sorted by demand descending, stable. -/
def sortByDemandDesc (l : List (Nat × Nat)) : List (Nat × Nat) :=
  l.foldl (fun acc x => insDesc x acc) []

/-- Stable insertion by original index, modelling Python `sorted` on
(index, subnet) pairs with pairwise distinct indices. -/
def insByIdx (key : Nat × Net) : List (Nat × Net) → List (Nat × Net)
  | [] => [key]
  | x :: xs => if key.1 < x.1 then key :: x :: xs else x :: insByIdx key xs

/-- Sort (index, subnet) pairs back into original index order. -/
def sortByIdx (l : List (Nat × Net)) : List (Nat × Net) :=
  l.foldl (fun acc x => insByIdx x acc) []

/-- Host bits needed for a demand: the smallest `k` with `2^k` at least
`needed`, i.e. the loop `while 2**(32-prefix) < needed: prefix -= 1`
counted from the other end. -/
def hostBitsFor (needed : Nat) : Nat :=
  ((List.range 64).find? (fun k => needed ≤ 2 ^ k)).getD 64

/-- `pool.subnets(new_prefix=32-k)` splitting of one free block: the
first sub-block is consumed, the remaining siblings are returned. -/
def splitBlock (b : Net) (k : Nat) : Net × List Net :=
  let newLen := 32 - k
  let count := 2 ^ (newLen - b.pLen)
  (⟨b.addr, newLen⟩,
   (List.range (count - 1)).map (fun j => ⟨b.addr + (j + 1) * 2 ^ k, newLen⟩))

/-- Scan the free-block pool in order for the first block whose prefix
can be split to the requested size; on success return the allocation and
the updated pool (used block removed in place, siblings appended at the
end, exactly as `del current_subnet_pool[i]; extend(new_subnets[1:])`). -/
def findSplit (k : Nat) : List Net → Option (Net × List Net)
  | [] => none
  | b :: bs =>
    if b.pLen + k ≤ 32 then
      some ((splitBlock b k).1, bs ++ (splitBlock b k).2)
    else
      match findSplit k bs with
      | none => none
      | some (s, pool) => some (s, b :: pool)

/-- The allocation loop over the demand list in sorted order. -/
def allocLoop : List (Nat × Nat) → List Net → List (Nat × Net) →
    Except String (List (Nat × Net))
  | [], _, acc => Except.ok acc
  | (idx, devices) :: rest, pool, acc =>
    let k := hostBitsFor (devices + 2)
    match findSplit k pool with
    | none =>
      Except.error "Not enough address space in the base network to accommodate all subnets."
    | some (sub, pool2) => allocLoop rest pool2 (acc ++ [(idx, sub)])

/-- `Subnetting.generate_subnetting`: pair demands with original indices,
sort by demand descending, allocate worst-fit-decreasing from the free
pool, then restore original order. The `ValueError` raised on exhaustion
(the `InsufficientAddressSpace` failure of the specification) is the
error case. -/
def Subnetting.generate_subnetting (s : Subnetting) : Except String (List Net) :=
  match allocLoop (sortByDemandDesc s.list_num_devices.enum) [s.network] [] with
  | Except.error e => Except.error e
  | Except.ok pairs => Except.ok ((sortByIdx pairs).map Prod.snd)

/-- Containment of one network in another. -/
def netWithin (a base : Net) : Bool :=
  base.addr ≤ a.addr ∧ a.addr + sizeOfLen a.pLen ≤ base.addr + sizeOfLen base.pLen

/-- Address-range disjointness of two networks. -/
def netDisjoint (a b : Net) : Bool :=
  a.addr + sizeOfLen a.pLen ≤ b.addr ∨ b.addr + sizeOfLen b.pLen ≤ a.addr

/-! ## The change-intent (the sparse configuration dict) -/

/-- Per-interface OSPF tuning parameters: the sub-dict the source stores
under the interface name key of the intent (`configuration[iface_name]`).
The field `is_pint_to_point` keeps the source's spelling. -/
structure IfaceParams where
  hello_interval : Option Nat
  dead_interval : Option Nat
  priority : Option Nat
  cost : Option Nat
  is_pint_to_point : Option Bool
  is_passive : Option Bool
deriving DecidableEq, Repr

/-- An `IfaceParams` with no keys present. -/
def emptyIfaceParams : IfaceParams := ⟨none, none, none, none, none, none⟩

/-- The change-intent dict: a sparse map, modelled with one `Option`
field per key the source reads. `ifaceParams` models the dynamic
interface-name keys consulted by the OSPF per-interface sections. -/
structure Configuration where
  device_name : Option String
  ip_domain_lookup : Option Bool
  username : Option String
  privilege : Option Nat
  password : Option String
  username_delete : Option String
  banner_motd : Option String
  password_encryption : Option Bool
  console_access : Option String
  console_password : Option String
  vty_protocols : Option (List String)
  enable_passwd : Option String
  iface : Option String
  subiface_num : Option Nat
  description : Option String
  ip_address : Option String
  mask : Option String
  is_up : Option Bool
  hsrp_virtual_ip : Option String
  hsrp_group : Option Nat
  hsrp_priority : Option Nat
  preempt : Option Bool
  helper_address : Option String
  first_excluded_addr : Option String
  last_excluded_addr : Option String
  pool_name : Option String
  pool_network : Option String
  pool_gateway_ip : Option String
  pool_dns_ip : Option String
  dest_ip : Option String
  next_hop : Option String
  admin_distance : Option Nat
  process_id : Option Nat
  router_id : Option String
  referenceBandwidth : Option Nat
  network_ip : Option String
  network_area : Option String
  is_redistribute : Option Bool
  iface_list : Option (List String)
  ifaceParams : List (String × IfaceParams)
deriving DecidableEq, Repr

/-- The empty change-intent `{}`. -/
def emptyConfiguration : Configuration :=
  ⟨none, none, none, none, none, none, none, none, none, none, none, none, none, none,
   none, none, none, none, none, none, none, none, none, none, none, none, none, none,
   none, none, none, none, none, none, none, none, none, none, none, []⟩

/-- Look up the per-interface sub-dict `configuration[name]`; a missing
key is Python `KeyError`. -/
def paramsFor (c : Configuration) (name : String) : Except String IfaceParams :=
  match c.ifaceParams.lookup name with
  | some p => Except.ok p
  | none => Except.error ("KeyError: " ++ name)

/-! ## The domain model (src/model/*.py data classes) -/

/-- Security settings (src/model/security.py constructor fields). -/
structure Security where
  is_encrypted : Bool
  console_access : String
  enable_by_password : Bool
  vty_protocols : List String
deriving DecidableEq, Repr

/-- A local user entry. -/
structure User where
  username : String
  privilege : Nat
deriving DecidableEq, Repr

/-- A Layer 3 interface (src/model/l3_interface.py, summarized at the
fields the constructor receives). -/
structure L3Interface where
  name : String
  is_up : Bool
  description : Option String
  ip_address : Option String
  netmask : Option String
deriving DecidableEq, Repr

/-- A DHCP pool entry of the model. -/
structure DhcpPool where
  name : String
  network : Option Net
  default_router : Option Nat
deriving DecidableEq, Repr

/-- An excluded-address range of the model. -/
structure ExcludedRange where
  start : Nat
  stop : Nat
deriving DecidableEq, Repr

/-- DHCP state of the model (src/model/dhcp.py). -/
structure DHCPData where
  pools : List DhcpPool
  excluded_addresses : List ExcludedRange
deriving DecidableEq, Repr

/-- One OSPF network statement held by an OSPF process. -/
structure OspfNetwork where
  network : Net
  network_area : String
deriving DecidableEq, Repr

/-- An OSPF process (src/model/routing_process.py `OSPF`). `bw_cost` and
`redistribute` are optional because `RoutingProcess.update` constructs new
processes with `config_info.get(...)`, which may pass `None`. -/
structure OSPF where
  id : Nat
  bw_cost : Option Nat
  networks : List OspfNetwork
  router_id : Option String
  redistribute : Option Bool
deriving DecidableEq, Repr

/-- A static route (src/model/routing_process.py `StaticRoute`). -/
structure StaticRoute where
  destination : Net
  next_hop : Nat
  admin_dist : Nat
deriving DecidableEq, Repr

/-- Routing state (src/model/routing_process.py `RoutingProcess`). -/
structure RoutingProcess where
  ospf_processes : List OSPF
  static_routes : List StaticRoute
deriving DecidableEq, Repr

/-- A router (src/model/device.py `Device` plus src/model/router.py
`Router` extension fields). -/
structure Router where
  device_name : String
  mgmt_ip : Nat
  mgmt_iface : String
  security : Security
  users : List User
  banner : Option String
  ip_domain_lookup : Bool
  interfaces : List L3Interface
  routing_process : RoutingProcess
  dhcp : DHCPData
deriving DecidableEq, Repr

/-! ## The command compiler (Device.config and Router.config) -/

/-- The `username` lines of `Device.config`: reading
`configuration['password']` with the key absent is Python `KeyError`. -/
def userLines (c : Configuration) : Except String (List String) :=
  match c.username with
  | none => Except.ok []
  | some u =>
    match c.password with
    | none => Except.error "KeyError: password"
    | some pw =>
      Except.ok ["username " ++ u ++ " privilege " ++ natStr (c.privilege.getD 1)
        ++ " secret " ++ pw]

/-- The console-access lines of `Device.config`. -/
def consoleLines (c : Configuration) : Except String (List String) :=
  if c.console_access = some "local_database" then
    Except.ok ["line console 0", "login local"]
  else if c.console_access = some "password" then
    match c.console_password with
    | none => Except.error "KeyError: console_password"
    | some pw => Except.ok ["line console 0", "password " ++ pw, "login"]
  else Except.ok []

/-- `Device.config`: the basic-identity, user, banner and security groups
of the compiler, in source order. -/
def Device.config (c : Configuration) : Except String (List String) := do
  let hostLines := match c.device_name with
    | some n => ["hostname " ++ n]
    | none => []
  let domainLines := match c.ip_domain_lookup with
    | some true => ["ip domain-lookup"]
    | some false => ["no ip domain-lookup"]
    | none => []
  let ul ← userLines c
  let delLines := match c.username_delete with
    | some u => ["no username " ++ u]
    | none => []
  let bannerLines := match c.banner_motd with
    | some b => ["banner motd ^" ++ stripCarets b ++ "^"]
    | none => []
  let encLines := if c.password_encryption.getD false then ["service password-encryption"] else []
  let cl ← consoleLines c
  let vtyLines := match c.vty_protocols with
    | some ps =>
      if ps.length > 1 then ["line vty 0 15", "transport input telnet ssh"]
      else if ps.length = 1 then ["line vty 0 15", "transport input ssh"]
      else []
    | none => []
  let enableLines := match c.enable_passwd with
    | some p => ["enable secret " ++ p]
    | none => []
  pure (hostLines ++ domainLines ++ ul ++ delLines ++ bannerLines ++ encLines ++ cl
    ++ vtyLines ++ enableLines)

/-- The interface group of `Router.config` (select/create subinterface,
description, IP address, shutdown state, HSRP block). Reading a missing
`configuration['mask']` is `KeyError`. -/
def ifaceSectionLines (c : Configuration) : Except String (List String) :=
  match c.iface with
  | none => Except.ok []
  | some ifn =>
    let selLines := match c.subiface_num with
      | some sub => ["interface " ++ ifn ++ "." ++ natStr sub,
                     "encapsulation dot1Q " ++ natStr sub]
      | none => ["interface " ++ ifn]
    let descLines := match c.description with
      | some d => ["description " ++ d]
      | none => []
    let ipLinesE : Except String (List String) := match c.ip_address with
      | some ip =>
        match c.mask with
        | none => Except.error "KeyError: mask"
        | some m => Except.ok ["ip address " ++ ip ++ " " ++ m]
      | none => Except.ok []
    match ipLinesE with
    | Except.error e => Except.error e
    | Except.ok ipLines =>
    let shutLines := match c.is_up with
      | some false => ["shutdown"]
      | some true => ["no shutdown"]
      | none => []
    let hsrpLines :=
      match c.hsrp_virtual_ip, c.hsrp_group, c.hsrp_priority, c.preempt with
      | some vip, some grp, some prio, some pre =>
        ["interface " ++ ifn,
         "standby " ++ natStr grp ++ " ip " ++ vip,
         "standby " ++ natStr grp ++ " priority " ++ natStr prio,
         if pre then "standby " ++ natStr grp ++ " preempt"
         else "no standby " ++ natStr grp ++ " preempt"]
      | _, _, _, _ => []
    Except.ok (selLines ++ descLines ++ ipLines ++ shutLines ++ hsrpLines)

/-- The DHCP helper-address group of `Router.config`. -/
def helperSectionLines (c : Configuration) : List String :=
  match c.helper_address, c.iface with
  | some h, some ifn => ["interface " ++ ifn, "ip helper-address " ++ h]
  | _, _ => []

/-- The DHCP excluded-address group of `Router.config`: a single-address
line when both rendered addresses coincide, a two-address line otherwise. -/
def excludedSectionLines (c : Configuration) : List String :=
  match c.first_excluded_addr, c.last_excluded_addr with
  | some a, some b =>
    if a = b then ["ip dhcp excluded-address " ++ a]
    else ["ip dhcp excluded-address " ++ a ++ " " ++ b]
  | _, _ => []

/-- The DHCP pool group of `Router.config`: pool name, network rendered
as dotted network-address plus dotted netmask, default router, optional
DNS server. The CIDR string is parsed with `strict=False`. -/
def poolSectionLines (c : Configuration) : Except String (List String) :=
  match c.pool_name, c.pool_network, c.pool_gateway_ip with
  | some pool, some netStrg, some gw =>
    match parseNet netStrg false with
    | Except.error e => Except.error e
    | Except.ok net =>
      let base := ["ip dhcp pool " ++ pool,
                   "network " ++ ipToStr net.addr ++ " " ++ ipToStr (maskOfLen net.pLen),
                   "default-router " ++ gw]
      let dnsLines := match c.pool_dns_ip with
        | some d => if d = "" then [] else ["dns-server " ++ d]
        | none => []
      Except.ok (base ++ dnsLines)
  | _, _, _ => Except.ok []

/-- The static-route group of `Router.config`: destination parsed with
`strict=False`, rendered as dotted network plus dotted mask; the
administrative distance is appended whenever the key is present. -/
def staticSectionLines (c : Configuration) : Except String (List String) :=
  match c.dest_ip, c.next_hop with
  | some dest, some nh =>
    match parseNet dest false with
    | Except.error e => Except.error e
    | Except.ok net =>
      let dip := ipToStr net.addr
      let msk := ipToStr (maskOfLen net.pLen)
      match c.admin_distance with
      | some ad => Except.ok ["ip route " ++ dip ++ " " ++ msk ++ " " ++ nh ++ " " ++ natStr ad]
      | none => Except.ok ["ip route " ++ dip ++ " " ++ msk ++ " " ++ nh]
  | _, _ => Except.ok []

/-- The OSPF process-mode group of `Router.config`: emitted under
`router ospf <pid>` when any process-level key is present; the network
statement uses the wildcard (host) mask. -/
def ospfSectionLines (c : Configuration) : Except String (List String) :=
  match c.process_id with
  | none => Except.ok []
  | some pid =>
    if c.router_id.isSome ∨ c.referenceBandwidth.isSome ∨ c.network_ip.isSome
        ∨ c.is_redistribute.isSome then
      let ridLines := match c.router_id with
        | some rid => ["router-id " ++ rid]
        | none => []
      let rbwLines := match c.referenceBandwidth with
        | some rbw => ["auto-cost reference-bandwidth " ++ natStr rbw]
        | none => []
      let netLinesE : Except String (List String) := match c.network_ip, c.network_area with
        | some nip, some area =>
          match parseNet nip false with
          | Except.error e => Except.error e
          | Except.ok net =>
            Except.ok ["network " ++ ipToStr net.addr ++ " " ++ ipToStr (hostMaskOfLen net.pLen)
              ++ " area " ++ area]
        | _, _ => Except.ok ([] : List String)
      match netLinesE with
      | Except.error e => Except.error e
      | Except.ok netLines =>
        let redistLines := match c.is_redistribute with
          | some true => ["redistribute static subnet"]
          | some false => ["no redistribute static subnet"]
          | none => []
        Except.ok (("router ospf " ++ natStr pid) :: (ridLines ++ rbwLines ++ netLines ++ redistLines))
    else Except.ok []

/-- Per-interface OSPF tuning lines for one listed interface, and whether
the interface is newly passive. -/
def ifaceTuningLines (c : Configuration) (name : String) :
    Except String (List String × Bool) :=
  match paramsFor c name with
  | Except.error e => Except.error e
  | Except.ok ps =>
  let helloLines := match ps.hello_interval with
    | some v => ["ip ospf hello-interval " ++ natStr v]
    | none => []
  let deadLines := match ps.dead_interval with
    | some v => ["ip ospf dead-interval " ++ natStr v]
    | none => []
  let prioLines := match ps.priority with
    | some v => ["ip ospf priority " ++ natStr v]
    | none => []
  let costLines := match ps.cost with
    | some v => ["ip ospf cost " ++ natStr v]
    | none => []
  let p2pLines := if ps.is_pint_to_point = some true then ["ip ospf network point-to-point"] else []
  Except.ok ((("interface " ++ name) :: (helloLines ++ deadLines ++ prioLines ++ costLines ++ p2pLines)),
    ps.is_passive = some true)

/-- The loop of the per-interface OSPF group of `Router.config`,
accumulating emitted lines and the newly passive interface names. -/
def ifaceListLinesLoop (c : Configuration) :
    List String → List String → List String → Except String (List String × List String)
  | [], lines, passive => Except.ok (lines, passive)
  | n :: rest, lines, passive =>
    match ifaceTuningLines c n with
    | Except.error e => Except.error e
    | Except.ok (ls, isP) =>
      ifaceListLinesLoop c rest (lines ++ ls) (if isP then passive ++ [n] else passive)

/-- The per-interface OSPF group of `Router.config`: tuning lines for
each listed interface, then a `router ospf <pid>` block listing the newly
passive interfaces (reading a missing `process_id` is `KeyError`). -/
def ifaceListSectionLines (c : Configuration) : Except String (List String) :=
  match c.iface_list with
  | none => Except.ok []
  | some names =>
    match ifaceListLinesLoop c names [] [] with
    | Except.error e => Except.error e
    | Except.ok (lines, passive) =>
      if passive.length ≠ 0 then
        match c.process_id with
        | none => Except.error "KeyError: process_id"
        | some pid =>
          Except.ok (lines ++ (("router ospf " ++ natStr pid) ::
            passive.map (fun p => "passive-interface " ++ p)))
      else
        Except.ok lines

/-- `Router.config`: the full intent-to-command compiler, feature groups
in source order, appended after the `Device.config` groups. The router
state is received as `self` but, as in the source, the emitted commands
depend only on the intent. -/
def Router.config (_r : Router) (c : Configuration) : Except String (List String) := do
  let dev ← Device.config c
  let ifl ← ifaceSectionLines c
  let pool ← poolSectionLines c
  let st ← staticSectionLines c
  let ospf ← ospfSectionLines c
  let il ← ifaceListSectionLines c
  pure (dev ++ ifl ++ helperSectionLines c ++ excludedSectionLines c ++ pool ++ st
    ++ ospf ++ il)

/-! ## The parsed configuration view (the ConfigParsedView collaborator) -/

/-- One parsed configuration object: a header line and its child lines,
the structure `CiscoConfParse` exposes at the boundary the source uses. -/
structure ConfigBlock where
  head : String
  children : List String
deriving DecidableEq, Repr

/-- A parsed running configuration. -/
abbrev ParsedConfig := List ConfigBlock

/-- All lines of the parsed view, headers and children in order
(`find_lines` searches every line). -/
def allLines (p : ParsedConfig) : List String :=
  p.foldr (fun b acc => b.head :: (b.children ++ acc)) []

/-- Render a flat command list as a parsed view of childless top-level
lines (a fake running config printed from compiler output). -/
def linesToParsed (lines : List String) : ParsedConfig :=
  lines.map (fun l => ⟨l, []⟩)

/-- `has_child_with` for an anchored `^\s*tok...\s*$` literal pattern. -/
def hasChildPat (b : ConfigBlock) (toks : List String) : Bool :=
  b.children.any (patMatch true toks .ws)

/-- `find_objects(r'^interface\s+NAME\b')`. -/
def findIfaceObjs (p : ParsedConfig) (name : String) : List ConfigBlock :=
  p.filter (fun b => patMatch false ["interface", name] .bound b.head)

/-- `find_objects(r'^router\s+ospf\s+PID\b')`. -/
def findOspfObjs (p : ParsedConfig) (pid : Nat) : List ConfigBlock :=
  p.filter (fun b => patMatch false ["router", "ospf", natStr pid] .bound b.head)

/-- `find_objects(r'^ip\s+dhcp\s+pool\s+NAME\s*$')`. -/
def findPoolObjs (p : ParsedConfig) (pool : String) : List ConfigBlock :=
  p.filter (fun b => patMatch false ["ip", "dhcp", "pool", pool] .ws b.head)

/-- `^line\s+con` (no trailing anchor). -/
def lineConHead (line : String) : Bool := patMatch false ["line", "con"] .any line

/-- `^line\s+vty\b`. -/
def lineVtyHead (line : String) : Bool := patMatch false ["line", "vty"] .bound line

/-- `^\s*login\b`. -/
def loginChild (line : String) : Bool := patMatch true ["login"] .bound line

/-- `^\s*login\s+local\b`. -/
def loginLocalChild (line : String) : Bool := patMatch true ["login", "local"] .bound line

/-- `^\s*transport\s+input\s+ssh\b`. -/
def transportSshChild (line : String) : Bool :=
  patMatch true ["transport", "input", "ssh"] .bound line

/-- `^\s*transport\s+input\s+(?:all|telnet\s+ssh|ssh\s+telnet)\b`. -/
def transportMultiChild (line : String) : Bool :=
  patMatch true ["transport", "input", "all"] .bound line
    || patMatch true ["transport", "input", "telnet", "ssh"] .bound line
    || patMatch true ["transport", "input", "ssh", "telnet"] .bound line

/-- `^\s*password(?:\s+\d+)?\s+\S+`: after the literal and at least one
whitespace character some non-whitespace must follow (the optional
numeric group changes nothing about matchability). -/
def passwordChild (line : String) : Bool :=
  match eatLit "password".data (dropWS line.data) with
  | none => false
  | some s =>
    match reqWS s with
    | none => false
    | some s1 => !s1.isEmpty

/-! ## The verification engine (Device/Router.verify_config_applied) -/

/-- `Device.verify_config_applied` on an already-fetched parsed view:
basic-identity and security checks, in source order. -/
def Device.verify_config_applied (c : Configuration) (parsed : ParsedConfig) :
    List (String × Bool) :=
  let ls := allLines parsed
  let hostE := match c.device_name with
    | some n =>
      let hostnameLine := (ls.find? (fun l => strStartsWith l "hostname ")).getD ""
      [("hostname", hostnameLine = "hostname " ++ n)]
    | none => []
  let domE := match c.ip_domain_lookup with
    | some v =>
      let hasNo := ls.any (fun l => strStartsWith l "no ip domain-lookup")
      [("ip_domain_lookup", if v then !hasNo else hasNo)]
    | none => []
  let banE := match c.banner_motd with
    | some b =>
      let bl := (ls.find? (fun l => strStartsWith l "banner motd")).getD ""
      [("banner_motd", strContains bl (stripCarets b))]
    | none => []
  let userE := match c.username with
    | some u => [("username " ++ u, ls.any (fun l => strStartsWith l ("username " ++ u ++ " ")))]
    | none => []
  let delE := match c.username_delete with
    | some u =>
      [("removed user " ++ u, !(ls.any (fun l => strStartsWith l ("username " ++ u ++ " "))))]
    | none => []
  let enE := match c.enable_passwd with
    | some _ =>
      let el := (ls.find? (fun l => strStartsWith l "enable secret")).getD ""
      [("enable_secret", el ≠ "")]
    | none => []
  let encE :=
    if c.password_encryption.getD false then
      [("password_encryption", ls.any (fun l => strStartsWith l "service password-encryption"))]
    else []
  let conE :=
    if c.console_access = some "local_database" then
      [("console_access",
        parsed.any (fun b => lineConHead b.head && b.children.any loginLocalChild))]
    else if c.console_access = some "password" then
      let parents := parsed.filter (fun b => lineConHead b.head && b.children.any passwordChild)
      [("console_access",
        parents.any (fun p => p.children.any loginChild && !(p.children.any loginLocalChild)))]
    else []
  let vtyE := match c.vty_protocols with
    | some ps =>
      let blocks := parsed.filter (fun b => lineVtyHead b.head)
      if ps.length = 1 then
        [("vty_protocols", blocks.any (fun b => b.children.any transportSshChild))]
      else if ps.length > 1 then
        [("vty_protocols", blocks.any (fun b => b.children.any transportMultiChild))]
      else []
    | none => []
  hostE ++ domE ++ banE ++ userE ++ delE ++ enE ++ encE ++ conE ++ vtyE

/-- The interface/subinterface checks of `Router.verify_config_applied`:
a presence boolean for a requested subinterface; description, IP,
shutdown state and HSRP sub-checks only when the interface block is
found, nothing otherwise. -/
def ifaceSectionChecks (c : Configuration) (parsed : ParsedConfig) : List (String × Bool) :=
  match c.iface with
  | none => []
  | some if0 =>
    let iname := match c.subiface_num with
      | some sub => if0 ++ "." ++ natStr sub
      | none => if0
    let presence := match c.subiface_num with
      | some _ => [("iface " ++ iname ++ " present", !(findIfaceObjs parsed iname).isEmpty)]
      | none => []
    let sub := match (findIfaceObjs parsed iname).head? with
      | none => []
      | some p =>
        let descE := match c.description with
          | some d => [("iface " ++ iname ++ " description", hasChildPat p ["description", d])]
          | none => []
        let ipE := match c.ip_address, c.mask with
          | some ip, some m => [("iface " ++ iname ++ " ip", hasChildPat p ["ip", "address", ip, m])]
          | _, _ => []
        let shutE := match c.is_up with
          | some false => [("iface " ++ iname ++ " shutdown", hasChildPat p ["shutdown"])]
          | some true => [("iface " ++ iname ++ " no shutdown", !(hasChildPat p ["shutdown"]))]
          | none => []
        let hsrpE := match c.hsrp_virtual_ip, c.hsrp_group, c.hsrp_priority, c.preempt with
          | some vip, some grp, some _, some _ =>
            [("hsrp " ++ iname, hasChildPat p ["standby", natStr grp, "ip", vip])]
          | _, _, _, _ => []
        descE ++ ipE ++ shutE ++ hsrpE
    presence ++ sub

/-- The DHCP helper-address check of `Router.verify_config_applied`
(note the underscore key on the absent-interface path, as in the source). -/
def helperChecks (c : Configuration) (parsed : ParsedConfig) : List (String × Bool) :=
  match c.helper_address, c.iface with
  | some h, some ifn =>
    match (findIfaceObjs parsed ifn).head? with
    | some p => [("dhcp helper address " ++ ifn, hasChildPat p ["ip", "helper-address", h])]
    | none => [("dhcp_helper address " ++ ifn, false)]
  | _, _ => []

/-- The excluded-address assertion pattern of the verifier: single
address when the two rendered addresses coincide, both otherwise. -/
def excludedPatToks (a b : String) : List String :=
  if a = b then ["ip", "dhcp", "excluded-address", a]
  else ["ip", "dhcp", "excluded-address", a, b]

/-- The DHCP excluded-address check of `Router.verify_config_applied`. -/
def excludedChecks (c : Configuration) (parsed : ParsedConfig) : List (String × Bool) :=
  match c.first_excluded_addr, c.last_excluded_addr with
  | some a, some b =>
    [("dhcp excluded addresses", (allLines parsed).any (patMatch false (excludedPatToks a b) .ws))]
  | _, _ => []

/-- The DHCP pool checks of `Router.verify_config_applied`: per-setting
booleans when the pool block is found, and an aggregate `dhcp pool`
boolean in every case. -/
def poolChecks (c : Configuration) (parsed : ParsedConfig) :
    Except String (List (String × Bool)) :=
  match c.pool_name, c.pool_network, c.pool_gateway_ip with
  | some pool, some netStrg, some gw =>
    match parseNet netStrg false with
    | Except.error e => Except.error e
    | Except.ok net =>
      let nw := ipToStr net.addr
      let nm := ipToStr (maskOfLen net.pLen)
      let dns := c.pool_dns_ip.getD ""
      match (findPoolObjs parsed pool).head? with
      | some p =>
        let netOk := hasChildPat p ["network", nw, nm]
        let gwOk := hasChildPat p ["default-router", gw]
        let dnsOk := if dns ≠ "" then hasChildPat p ["dns-server", dns] else true
        Except.ok ([("dhcp pool " ++ pool ++ " network", netOk),
               ("dhcp pool " ++ pool ++ " gateway", gwOk)]
          ++ (if dns ≠ "" then [("dhcp_pool " ++ pool ++ " dns", dnsOk)] else [])
          ++ [("dhcp pool", netOk && gwOk && dnsOk)])
      | none => Except.ok [("dhcp pool", false)]
  | _, _, _ => Except.ok []

/-- The static-route assertion pattern of the verifier: the
administrative distance appears only when present and different from 1. -/
def staticPatToks (dip msk nh : String) (ad : Option Nat) : List String :=
  match ad with
  | some a => if a = 1 then ["ip", "route", dip, msk, nh] else ["ip", "route", dip, msk, nh, natStr a]
  | none => ["ip", "route", dip, msk, nh]

/-- The result key of the static-route check (the distance appears
whenever present). -/
def staticKey (dip msk nh : String) (ad : Option Nat) : String :=
  "static route " ++ dip ++ " " ++ msk ++ " " ++ nh
    ++ (match ad with | some a => " " ++ natStr a | none => "")

/-- The static-route check of `Router.verify_config_applied`. -/
def staticChecks (c : Configuration) (parsed : ParsedConfig) :
    Except String (List (String × Bool)) :=
  match c.dest_ip, c.next_hop with
  | some dest, some nh =>
    match parseNet dest false with
    | Except.error e => Except.error e
    | Except.ok net =>
      let dip := ipToStr net.addr
      let msk := ipToStr (maskOfLen net.pLen)
      Except.ok [(staticKey dip msk nh c.admin_distance,
        (allLines parsed).any (patMatch false (staticPatToks dip msk nh c.admin_distance) .ws))]
  | _, _ => Except.ok []

/-- The OSPF process-mode checks of `Router.verify_config_applied`: a
presence boolean always, the per-setting sub-checks only when the
process block is found (the network statement re-parses `network_ip`
with the strict default). -/
def ospfChecks (c : Configuration) (parsed : ParsedConfig) :
    Except String (List (String × Bool)) :=
  match c.process_id with
  | none => Except.ok []
  | some pid =>
    let objs := findOspfObjs parsed pid
    let presence := [("ospf " ++ natStr pid ++ " present", !objs.isEmpty)]
    match objs.head? with
    | none => Except.ok presence
    | some p =>
      let ridE := match c.router_id with
        | some rid => [("ospf " ++ natStr pid ++ " router_id", hasChildPat p ["router-id", rid])]
        | none => []
      let rbwE := match c.referenceBandwidth with
        | some rbw => [("ospf " ++ natStr pid ++ " reference bandwidth",
            hasChildPat p ["auto-cost", "reference-bandwidth", natStr rbw])]
        | none => []
      let netEE : Except String (List (String × Bool)) := match c.network_ip, c.network_area with
        | some nip, some area =>
          match parseNet nip true with
          | Except.error e => Except.error e
          | Except.ok net =>
            Except.ok [("ospf " ++ natStr pid ++ " network " ++ ipToStr net.addr,
              hasChildPat p ["network", ipToStr net.addr, ipToStr (hostMaskOfLen net.pLen),
                "area", area])]
        | _, _ => Except.ok ([] : List (String × Bool))
      match netEE with
      | Except.error e => Except.error e
      | Except.ok netE =>
        let redE := if c.is_redistribute = some true then
            [("ospf " ++ natStr pid ++ " redistribute static subnets",
              hasChildPat p ["redistribute", "static", "subnets"])]
          else []
        Except.ok (presence ++ ridE ++ rbwE ++ netE ++ redE)

/-- The per-interface OSPF checks of `Router.verify_config_applied`:
interfaces absent from the parsed view are skipped; interfaces whose
params carry an `is_passive` key (whatever its value) are collected, and
the passive checks index `find_objects(router ospf pid)[0]` without an
emptiness guard — an absent process block is an `IndexError`. -/
def ifaceListChecksLoop (c : Configuration) (parsed : ParsedConfig) :
    List String → List (String × Bool) → List String →
    Except String (List (String × Bool) × List String)
  | [], entries, passive => Except.ok (entries, passive)
  | n :: rest, entries, passive =>
    match (findIfaceObjs parsed n).head? with
    | none => ifaceListChecksLoop c parsed rest entries passive
    | some p =>
      match paramsFor c n with
      | Except.error e => Except.error e
      | Except.ok ps =>
        let helloE := match ps.hello_interval with
          | some v => [("ospf " ++ n ++ " hello", hasChildPat p ["ip", "ospf", "hello-interval", natStr v])]
          | none => []
        let deadE := match ps.dead_interval with
          | some v => [("ospf " ++ n ++ " dead", hasChildPat p ["ip", "ospf", "dead-interval", natStr v])]
          | none => []
        let prioE := match ps.priority with
          | some v => [("ospf " ++ n ++ "_priority", hasChildPat p ["ip", "ospf", "priority", natStr v])]
          | none => []
        let costE := match ps.cost with
          | some v => [("ospf " ++ n ++ " cost", hasChildPat p ["ip", "ospf", "cost", natStr v])]
          | none => []
        let p2pE := if ps.is_pint_to_point = some true then
            [("ospf " ++ n ++ " p2p", hasChildPat p ["ip", "ospf", "network", "point-to-point"])]
          else []
        ifaceListChecksLoop c parsed rest (entries ++ helloE ++ deadE ++ prioE ++ costE ++ p2pE)
          (if ps.is_passive.isSome then passive ++ [n] else passive)

/-- Dispatch of the per-interface OSPF checks after the loop: when any
passive interface was collected, the source reads `process_id` (a
possible `KeyError`) and indexes `find_objects(router ospf pid)[0]`
without a guard (a possible `IndexError`). -/
def ifaceListChecks (c : Configuration) (parsed : ParsedConfig) :
    Except String (List (String × Bool)) :=
  match c.iface_list with
  | none => Except.ok []
  | some names =>
    match ifaceListChecksLoop c parsed names [] [] with
    | Except.error e => Except.error e
    | Except.ok (entries, passive) =>
      if passive.length > 0 then
        match c.process_id with
        | none => Except.error "KeyError: process_id"
        | some pid =>
          match (findOspfObjs parsed pid).head? with
          | none => Except.error "IndexError: list index out of range"
          | some pr =>
            Except.ok (entries ++ passive.map (fun pif =>
              ("ospf " ++ natStr pid ++ " passive " ++ pif, hasChildPat pr ["passive-interface", pif])))
      else
        Except.ok entries

/-- `Router.verify_config_applied` on an already-fetched parsed view:
the device checks followed by the router-specific feature checks, each
feature keyed section in source order; a Python exception anywhere is
the error case. -/
def Router.verify_config_applied (_r : Router) (c : Configuration) (parsed : ParsedConfig) :
    Except String (List (String × Bool)) := do
  let dev := Device.verify_config_applied c parsed
  let pool ← poolChecks c parsed
  let st ← staticChecks c parsed
  let ospf ← ospfChecks c parsed
  let il ← ifaceListChecks c parsed
  pure (dev ++ ifaceSectionChecks c parsed ++ helperChecks c parsed ++ excludedChecks c parsed
    ++ pool ++ st ++ ospf ++ il)

/-! ## Routing-process updates (src/model/routing_process.py) -/

/-- The trailing field merges of `OSPF.update` (router id and
redistribution flag). -/
def ospfApplyTail (o : OSPF) (c : Configuration) : OSPF :=
  let o3 := match c.router_id with
    | some rid => { o with router_id := some rid }
    | none => o
  match c.is_redistribute with
  | some v => { o3 with redistribute := some v }
  | none => o3

/-- `OSPF.update`: merge the intent fields into an existing process; the
process id is never touched. -/
def OSPF.update (o : OSPF) (c : Configuration) : Except String OSPF :=
  let o1 := match c.referenceBandwidth with
    | some v => { o with bw_cost := some v }
    | none => o
  match c.network_ip with
  | some nip =>
    match c.network_area with
    | none => Except.error "KeyError: network_area"
    | some area =>
      match parseNet nip true with
      | Except.error e => Except.error e
      | Except.ok net =>
        Except.ok (ospfApplyTail { o1 with networks := o1.networks ++ [⟨net, area⟩] } c)
  | none => Except.ok (ospfApplyTail o1 c)

/-- The OSPF process appended by `RoutingProcess.update` when no process
with the requested id exists (constructed with `config_info.get(...)`). -/
def newOspfFrom (c : Configuration) (pid : Nat) : Except String OSPF :=
  match c.network_ip with
  | some nip =>
    match c.network_area with
    | none => Except.error "KeyError: network_area"
    | some area =>
      match parseNet nip true with
      | Except.error e => Except.error e
      | Except.ok net =>
        Except.ok ⟨pid, c.referenceBandwidth, [⟨net, area⟩], c.router_id, c.is_redistribute⟩
  | none => Except.ok ⟨pid, c.referenceBandwidth, [], c.router_id, c.is_redistribute⟩

/-- The linear scan of `RoutingProcess.update`: merge the intent into the
first process with a matching id, returning `none` when there is none. -/
def updFirstOspf (pid : Nat) (c : Configuration) :
    List OSPF → Except String (Option (List OSPF))
  | [] => Except.ok none
  | o :: os =>
    if o.id = pid then
      match o.update c with
      | Except.error e => Except.error e
      | Except.ok o2 => Except.ok (some (o2 :: os))
    else
      match updFirstOspf pid c os with
      | Except.error e => Except.error e
      | Except.ok none => Except.ok none
      | Except.ok (some l) => Except.ok (some (o :: l))

/-- The static-route part of `RoutingProcess.update`: appends one route
when the full triple of static-route keys is present; the OSPF list is
untouched. -/
def routingStaticPart (rp : RoutingProcess) (c : Configuration) :
    Except String RoutingProcess :=
  match c.dest_ip, c.next_hop, c.admin_distance with
  | some d, some nh, some ad =>
    match parseNet d true with
    | Except.error e => Except.error e
    | Except.ok net =>
      match parseIPv4 nh with
      | none => Except.error ("ValueError: " ++ nh ++ " does not appear to be an IPv4 address")
      | some nhv =>
        Except.ok { rp with static_routes := rp.static_routes ++ [(⟨net, nhv, ad⟩ : StaticRoute)] }
  | _, _, _ => Except.ok rp

/-- `RoutingProcess.update`: append a static route when the full triple
of static-route keys is present, then upsert the OSPF process named by
`process_id` — merge into the first existing process with that id, or
append exactly one new process. -/
def RoutingProcess.update (rp : RoutingProcess) (c : Configuration) :
    Except String RoutingProcess :=
  match routingStaticPart rp c with
  | Except.error e => Except.error e
  | Except.ok rp1 =>
    match c.process_id with
    | none => Except.ok rp1
    | some pid =>
      match updFirstOspf pid c rp1.ospf_processes with
      | Except.error e => Except.error e
      | Except.ok (some l2) => Except.ok { rp1 with ospf_processes := l2 }
      | Except.ok none =>
        match newOspfFrom c pid with
        | Except.error e => Except.error e
        | Except.ok newO =>
          Except.ok { rp1 with ospf_processes := rp1.ospf_processes ++ [newO] }

/-! ## Sample model values used by witnesses -/

/-- A concrete router model. -/
def sampleRouter : Router :=
  ⟨"R1", 167772161, "GigabitEthernet0/0", ⟨false, "none", false, ["ssh"]⟩, [], none, false,
   [⟨"GigabitEthernet0/0", true, none, some "10.0.0.1", some "255.255.255.0"⟩],
   ⟨[], []⟩, ⟨[], []⟩⟩

/-- The DHCP pool scenario intent (exactly the three pool keys). -/
def poolIntent : Configuration :=
  { emptyConfiguration with
      pool_name := some "CORP", pool_network := some "10.1.1.0/24",
      pool_gateway_ip := some "10.1.1.1" }

/-- The static-route scenario intent (no admin_distance). -/
def routeIntent : Configuration :=
  { emptyConfiguration with
      dest_ip := some "192.168.2.0/24", next_hop := some "10.0.0.2" }

/-! ## Allocator length lemmas -/

theorem insDesc_length (x : Nat × Nat) (l : List (Nat × Nat)) :
    (insDesc x l).length = l.length + 1 := by
  induction l with
  | nil => rfl
  | cons y ys ih =>
    simp only [insDesc]
    split
    · simp
    · simp [ih]

theorem foldl_insDesc_length (l : List (Nat × Nat)) :
    ∀ acc, (l.foldl (fun acc x => insDesc x acc) acc).length = acc.length + l.length := by
  induction l with
  | nil => intro acc; simp
  | cons y ys ih =>
    intro acc
    simp only [List.foldl_cons]
    rw [ih, insDesc_length]
    simp only [List.length_cons]
    omega

theorem sortByDemandDesc_length (l : List (Nat × Nat)) :
    (sortByDemandDesc l).length = l.length := by
  simpa [sortByDemandDesc] using foldl_insDesc_length l []

theorem insByIdx_length (x : Nat × Net) (l : List (Nat × Net)) :
    (insByIdx x l).length = l.length + 1 := by
  induction l with
  | nil => rfl
  | cons y ys ih =>
    simp only [insByIdx]
    split
    · simp
    · simp [ih]

theorem foldl_insByIdx_length (l : List (Nat × Net)) :
    ∀ acc, (l.foldl (fun acc x => insByIdx x acc) acc).length = acc.length + l.length := by
  induction l with
  | nil => intro acc; simp
  | cons y ys ih =>
    intro acc
    simp only [List.foldl_cons]
    rw [ih, insByIdx_length]
    simp only [List.length_cons]
    omega

theorem sortByIdx_length (l : List (Nat × Net)) : (sortByIdx l).length = l.length := by
  simpa [sortByIdx] using foldl_insByIdx_length l []

theorem allocLoop_ok_length :
    ∀ (ds : List (Nat × Nat)) (pool : List Net) (acc res : List (Nat × Net)),
      allocLoop ds pool acc = Except.ok res → res.length = acc.length + ds.length := by
  intro ds
  induction ds with
  | nil =>
    intro pool acc res h
    simp only [allocLoop] at h
    cases h
    simp
  | cons d rest ih =>
    intro pool acc res h
    obtain ⟨idx, devices⟩ := d
    simp only [allocLoop] at h
    cases hf : findSplit (hostBitsFor (devices + 2)) pool with
    | none => rw [hf] at h; cases h
    | some pr =>
      rw [hf] at h
      obtain ⟨sub, pool2⟩ := pr
      have h2 := ih pool2 (acc ++ [(idx, sub)]) res h
      simp at h2
      simp only [List.length_cons]
      omega

/-- An `ok` result of the allocator contains exactly one subnet per
demand: no partial allocation is ever returned. -/
theorem generate_ok_length (s : Subnetting) (l : List Net)
    (h : Subnetting.generate_subnetting s = Except.ok l) :
    l.length = s.list_num_devices.length := by
  unfold Subnetting.generate_subnetting at h
  cases ha : allocLoop (sortByDemandDesc s.list_num_devices.enum) [s.network] [] with
  | error e => rw [ha] at h; cases h
  | ok pairs =>
    rw [ha] at h
    cases h
    have h1 := allocLoop_ok_length _ _ _ _ ha
    simp only [List.length_nil, Nat.zero_add] at h1
    rw [List.length_map, sortByIdx_length, h1, sortByDemandDesc_length, List.enum_length]

/-! ## Claim theorems (first group) -/

/-- C1: for every router model, compiling the empty change-intent does
not error and returns the empty command list — nothing to apply. -/
theorem compile_empty_intent (r : Router) :
    Router.config r emptyConfiguration = Except.ok [] := rfl

/-- Witness for C1 at a concrete router. -/
theorem compile_empty_intent_witness :
    Router.config sampleRouter emptyConfiguration = Except.ok [] :=
  compile_empty_intent sampleRouter

/-- C2: for base 10.0.0.0/24 (address 167772160) and demands [50, 10, 2],
the allocator returns exactly the three subnets 10.0.0.0/26, 10.0.0.64/28
(address 167772224) and 10.0.0.128/30 (address 167772288), in the demand
list's original index order; they are pairwise disjoint, contained in the
base network, and each holds at least demand+2 addresses. -/
theorem allocator_three_demands :
    Subnetting.generate_subnetting ⟨⟨167772160, 24⟩, [50, 10, 2]⟩
        = Except.ok [⟨167772160, 26⟩, ⟨167772224, 28⟩, ⟨167772288, 30⟩]
    ∧ netWithin ⟨167772160, 26⟩ ⟨167772160, 24⟩ = true
    ∧ netWithin ⟨167772224, 28⟩ ⟨167772160, 24⟩ = true
    ∧ netWithin ⟨167772288, 30⟩ ⟨167772160, 24⟩ = true
    ∧ netDisjoint ⟨167772160, 26⟩ ⟨167772224, 28⟩ = true
    ∧ netDisjoint ⟨167772160, 26⟩ ⟨167772288, 30⟩ = true
    ∧ netDisjoint ⟨167772224, 28⟩ ⟨167772288, 30⟩ = true
    ∧ 50 + 2 ≤ sizeOfLen 26 ∧ 10 + 2 ≤ sizeOfLen 28 ∧ 2 + 2 ≤ sizeOfLen 30 := by
  decide

/-- C3: for base 10.0.0.0/30 and demands [100] the allocator fails with
its exhaustion error (the `InsufficientAddressSpace` failure of the
specification, raised by the source as a `ValueError` with this message),
and in general an allocation that does not error returns exactly one
subnet per demand — never a partial allocation. -/
theorem allocator_exhaustion :
    Subnetting.generate_subnetting ⟨⟨167772160, 30⟩, [100]⟩
        = Except.error "Not enough address space in the base network to accommodate all subnets."
    ∧ ∀ (s : Subnetting) (l : List Net),
        Subnetting.generate_subnetting s = Except.ok l → l.length = s.list_num_devices.length :=
  ⟨by decide, fun s l h => generate_ok_length s l h⟩

/-- Witness for C3: the no-partial-allocation component at a concrete
successful allocation. -/
theorem allocator_exhaustion_witness :
    ([⟨167772160, 26⟩, ⟨167772224, 28⟩, ⟨167772288, 30⟩] : List Net).length
      = [50, 10, 2].length :=
  allocator_exhaustion.2 ⟨⟨167772160, 24⟩, [50, 10, 2]⟩
    [⟨167772160, 26⟩, ⟨167772224, 28⟩, ⟨167772288, 30⟩] (by decide)

/-- C5: for every router model, the intent holding exactly the keys
pool_name="CORP", pool_network="10.1.1.0/24", pool_gateway_ip="10.1.1.1"
compiles to exactly the three pool lines, in order, with the network
rendered as dotted address plus dotted netmask. -/
theorem dhcp_pool_compile (r : Router) :
    Router.config r poolIntent
      = Except.ok ["ip dhcp pool CORP", "network 10.1.1.0 255.255.255.0",
                   "default-router 10.1.1.1"] := rfl

/-- Witness for C5 at a concrete router. -/
theorem dhcp_pool_compile_witness :
    Router.config sampleRouter poolIntent
      = Except.ok ["ip dhcp pool CORP", "network 10.1.1.0 255.255.255.0",
                   "default-router 10.1.1.1"] :=
  dhcp_pool_compile sampleRouter

/-- C6: for every router model, the intent {dest_ip:"192.168.2.0/24",
next_hop:"10.0.0.2"} with no admin_distance compiles to exactly the line
`ip route 192.168.2.0 255.255.255.0 10.0.0.2`, the distance omitted. -/
theorem static_route_compile (r : Router) :
    Router.config r routeIntent
      = Except.ok ["ip route 192.168.2.0 255.255.255.0 10.0.0.2"] := rfl

/-- Witness for C6 at a concrete router. -/
theorem static_route_compile_witness :
    Router.config sampleRouter routeIntent
      = Except.ok ["ip route 192.168.2.0 255.255.255.0 10.0.0.2"] :=
  static_route_compile sampleRouter

/-- C8: the abbreviations g0/1, Gi0/1 and the full GigabitEthernet0/1 all
normalize to the identical canonical name, and f0/0.100 normalizes to
FastEthernet0/0.100. -/
theorem normalize_iface_canonical :
    normalize_iface "g0/1" = "GigabitEthernet0/1"
    ∧ normalize_iface "Gi0/1" = "GigabitEthernet0/1"
    ∧ normalize_iface "GigabitEthernet0/1" = "GigabitEthernet0/1"
    ∧ normalize_iface "f0/0.100" = "FastEthernet0/0.100" := by
  decide

/-! ## OSPF upsert lemmas (C9) -/

theorem ospfApplyTail_id (o : OSPF) (c : Configuration) : (ospfApplyTail o c).id = o.id := by
  unfold ospfApplyTail
  cases c.router_id <;> cases c.is_redistribute <;> rfl

theorem OSPF.update_id (o : OSPF) (c : Configuration) (o2 : OSPF)
    (h : OSPF.update o c = Except.ok o2) : o2.id = o.id := by
  unfold OSPF.update at h
  cases hn : c.network_ip with
  | none =>
    simp only [hn] at h
    cases h
    rw [ospfApplyTail_id]
    cases c.referenceBandwidth <;> rfl
  | some nip =>
    simp only [hn] at h
    cases ha : c.network_area with
    | none => rw [ha] at h; cases h
    | some area =>
      rw [ha] at h
      cases hp : parseNet nip true with
      | error e => rw [hp] at h; cases h
      | ok net =>
        rw [hp] at h
        cases h
        rw [ospfApplyTail_id]
        cases c.referenceBandwidth <;> rfl

theorem newOspfFrom_id (c : Configuration) (pid : Nat) (o : OSPF)
    (h : newOspfFrom c pid = Except.ok o) : o.id = pid := by
  unfold newOspfFrom at h
  cases hn : c.network_ip with
  | none => simp only [hn] at h; cases h; rfl
  | some nip =>
    simp only [hn] at h
    cases ha : c.network_area with
    | none => simp only [ha] at h; cases h
    | some area =>
      simp only [ha] at h
      cases hp : parseNet nip true with
      | error e => simp only [hp] at h; cases h
      | ok net => simp only [hp] at h; cases h; rfl

theorem updFirstOspf_ok_some_ids (pid : Nat) (c : Configuration) :
    ∀ (l l2 : List OSPF), updFirstOspf pid c l = Except.ok (some l2) →
      l2.map OSPF.id = l.map OSPF.id := by
  intro l
  induction l with
  | nil => intro l2 h; cases h
  | cons o os ih =>
    intro l2 h
    unfold updFirstOspf at h
    by_cases h0 : o.id = pid
    · rw [if_pos h0] at h
      cases hu : OSPF.update o c with
      | error e => rw [hu] at h; cases h
      | ok o2 =>
        rw [hu] at h
        cases h
        simp [OSPF.update_id o c o2 hu]
    · rw [if_neg h0] at h
      cases hr : updFirstOspf pid c os with
      | error e => rw [hr] at h; cases h
      | ok ro =>
        rw [hr] at h
        cases ro with
        | none => cases h
        | some l3 =>
          cases h
          simp [ih l3 hr]

theorem updFirstOspf_ok_some_mem (pid : Nat) (c : Configuration) :
    ∀ (l l2 : List OSPF), updFirstOspf pid c l = Except.ok (some l2) →
      pid ∈ l.map OSPF.id := by
  intro l
  induction l with
  | nil => intro l2 h; cases h
  | cons o os ih =>
    intro l2 h
    unfold updFirstOspf at h
    by_cases h0 : o.id = pid
    · simp [h0]
    · rw [if_neg h0] at h
      cases hr : updFirstOspf pid c os with
      | error e => rw [hr] at h; cases h
      | ok ro =>
        rw [hr] at h
        cases ro with
        | none => cases h
        | some l3 =>
          simp only [List.map_cons, List.mem_cons]
          exact Or.inr (ih l3 hr)

theorem updFirstOspf_ok_none (pid : Nat) (c : Configuration) :
    ∀ (l : List OSPF), updFirstOspf pid c l = Except.ok none →
      pid ∉ l.map OSPF.id := by
  intro l
  induction l with
  | nil => intro _ h; simp at h ⊢
  | cons o os ih =>
    intro h
    unfold updFirstOspf at h
    by_cases h0 : o.id = pid
    · rw [if_pos h0] at h
      cases hu : OSPF.update o c with
      | error e => rw [hu] at h; cases h
      | ok o2 => rw [hu] at h; cases h
    · rw [if_neg h0] at h
      cases hr : updFirstOspf pid c os with
      | error e => rw [hr] at h; cases h
      | ok ro =>
        cases ro with
        | none =>
          simp only [List.map_cons, List.mem_cons]
          intro hmem
          cases hmem with
          | inl he => exact h0 he.symm
          | inr hm => exact ih hr hm
        | some l3 => rw [hr] at h; cases h

theorem routingStaticPart_ospf (rp : RoutingProcess) (c : Configuration)
    (rp1 : RoutingProcess) (h : routingStaticPart rp c = Except.ok rp1) :
    rp1.ospf_processes = rp.ospf_processes := by
  unfold routingStaticPart at h
  split at h
  · rename_i d nh ad hd hn ha
    split at h
    · cases h
    · split at h
      · cases h
      · cases h; rfl
  · cases h; rfl

/-- C9: an update whose intent carries `process_id` preserves the
pairwise distinctness of OSPF process ids: it merges into the existing
process with that id (leaving the id list unchanged) or appends exactly
one new process with that id; no update produces a duplicate id. -/
theorem ospf_upsert (rp : RoutingProcess) (c : Configuration) (pid : Nat)
    (rp2 : RoutingProcess)
    (hpid : c.process_id = some pid)
    (hnd : (rp.ospf_processes.map OSPF.id).Nodup)
    (h : RoutingProcess.update rp c = Except.ok rp2) :
    (rp2.ospf_processes.map OSPF.id).Nodup
    ∧ (pid ∈ rp.ospf_processes.map OSPF.id →
        rp2.ospf_processes.map OSPF.id = rp.ospf_processes.map OSPF.id)
    ∧ (pid ∉ rp.ospf_processes.map OSPF.id →
        rp2.ospf_processes.map OSPF.id = rp.ospf_processes.map OSPF.id ++ [pid]) := by
  unfold RoutingProcess.update at h
  cases hs : routingStaticPart rp c with
  | error e => rw [hs] at h; cases h
  | ok rp1 =>
    simp only [hs] at h
    have hosp := routingStaticPart_ospf rp c rp1 hs
    simp only [hpid] at h
    cases hu : updFirstOspf pid c rp1.ospf_processes with
    | error e => rw [hu] at h; cases h
    | ok ro =>
      simp only [hu] at h
      cases ro with
      | some l2 =>
        cases h
        have hids := updFirstOspf_ok_some_ids pid c rp1.ospf_processes l2 hu
        have hmem := updFirstOspf_ok_some_mem pid c rp1.ospf_processes l2 hu
        rw [hosp] at hids hmem
        refine ⟨by simpa [hids] using hnd, fun _ => hids, fun hno => absurd hmem hno⟩
      | none =>
        cases hnew : newOspfFrom c pid with
        | error e => rw [hnew] at h; cases h
        | ok newO =>
          simp only [hnew] at h
          cases h
          have hid := newOspfFrom_id c pid newO hnew
          have hnomem := updFirstOspf_ok_none pid c rp1.ospf_processes hu
          rw [hosp] at hnomem
          have hids2 : (rp1.ospf_processes ++ [newO]).map OSPF.id
              = rp.ospf_processes.map OSPF.id ++ [pid] := by
            simp [List.map_append, hosp, hid]
          refine ⟨?_, fun hmem => absurd hmem hnomem, fun _ => hids2⟩
          rw [hids2]
          exact hnd.append (List.nodup_singleton pid)
            (fun a ha hb => by simp at hb; subst hb; exact hnomem ha)

/-- A routing state with one OSPF process (id 1). -/
def rpSample : RoutingProcess := ⟨[⟨1, some 100, [], none, some false⟩], []⟩

/-- An intent updating OSPF process 2 (absent from `rpSample`). -/
def ospfIntent : Configuration :=
  { emptyConfiguration with process_id := some 2, router_id := some "1.1.1.1" }

/-- The state after applying `ospfIntent` to `rpSample`. -/
def rpUpserted : RoutingProcess :=
  ⟨[⟨1, some 100, [], none, some false⟩, ⟨2, none, [], some "1.1.1.1", none⟩], []⟩

/-- Witness for C9 at a concrete routing state and intent. -/
theorem ospf_upsert_witness :
    (rpUpserted.ospf_processes.map OSPF.id).Nodup
    ∧ (2 ∈ rpSample.ospf_processes.map OSPF.id →
        rpUpserted.ospf_processes.map OSPF.id = rpSample.ospf_processes.map OSPF.id)
    ∧ (2 ∉ rpSample.ospf_processes.map OSPF.id →
        rpUpserted.ospf_processes.map OSPF.id = rpSample.ospf_processes.map OSPF.id ++ [2]) :=
  ospf_upsert rpSample ospfIntent 2 rpUpserted (by decide) (by decide) (by decide)

/-! ## Token and rendering lemmas (C4, C10) -/

theorem digitChar_not_ws (d : Nat) (hd : d < 10) : wsChar (digitChar d) = false := by
  interval_cases d <;> decide

theorem natDigitsAux_mem (fuel : Nat) :
    ∀ (n : Nat) (acc : List Char) (c : Char), c ∈ natDigitsAux fuel n acc →
      c ∈ acc ∨ ∃ d, d < 10 ∧ c = digitChar d := by
  induction fuel with
  | zero => intro n acc c hc; exact Or.inl hc
  | succ fuel ih =>
    intro n acc c hc
    unfold natDigitsAux at hc
    by_cases hn : n < 10
    · rw [if_pos hn] at hc
      rcases List.mem_cons.mp hc with h | h
      · exact Or.inr ⟨n, hn, h⟩
      · exact Or.inl h
    · rw [if_neg hn] at hc
      rcases ih (n / 10) (digitChar (n % 10) :: acc) c hc with h | h
      · rcases List.mem_cons.mp h with h2 | h2
        · exact Or.inr ⟨n % 10, Nat.mod_lt n (by omega), h2⟩
        · exact Or.inl h2
      · exact Or.inr h

theorem natStr_wsFree (n : Nat) : wsFree (natStr n) = true := by
  unfold wsFree natStr
  rw [List.all_eq_true]
  intro c hc
  rcases natDigitsAux_mem (n + 1) n [] c hc with h | ⟨d, hd, hcd⟩
  · cases h
  · subst hcd
    simp [digitChar_not_ws d hd]

theorem natDigitsAux_ne_nil_of_acc (fuel : Nat) :
    ∀ (n : Nat) (acc : List Char), acc ≠ [] → natDigitsAux fuel n acc ≠ [] := by
  induction fuel with
  | zero => intro n acc h; exact h
  | succ fuel ih =>
    intro n acc h
    unfold natDigitsAux
    by_cases hn : n < 10
    · simp [hn]
    · rw [if_neg hn]
      exact ih (n / 10) _ (by simp)

theorem natStr_ne_nil (n : Nat) : (natStr n).data ≠ [] := by
  show natDigitsAux (n + 1) n [] ≠ []
  unfold natDigitsAux
  by_cases hn : n < 10
  · simp [hn]
  · rw [if_neg hn]
    exact natDigitsAux_ne_nil_of_acc n (n / 10) _ (by simp)

theorem wsFree_append (a b : String) (ha : wsFree a = true) (hb : wsFree b = true) :
    wsFree (a ++ b) = true := by
  unfold wsFree at *
  rw [String.data_append, List.all_append]
  simp [ha, hb]

theorem ipToStr_wsFree (n : Nat) : wsFree (ipToStr n) = true := by
  unfold ipToStr
  repeat' apply wsFree_append
  all_goals first | exact natStr_wsFree _ | decide

theorem append_data_ne_nil_left (a b : String) (h : a.data ≠ []) : (a ++ b).data ≠ [] := by
  rw [String.data_append]
  intro hc
  exact h (List.append_eq_nil.mp hc).1

theorem ipToStr_ne_nil (n : Nat) : (ipToStr n).data ≠ [] := by
  unfold ipToStr
  apply append_data_ne_nil_left
  apply append_data_ne_nil_left
  apply append_data_ne_nil_left
  apply append_data_ne_nil_left
  apply append_data_ne_nil_left
  apply append_data_ne_nil_left
  exact natStr_ne_nil _

theorem eatLit_self_append (t rest : List Char) : eatLit t (t ++ rest) = some rest := by
  induction t with
  | nil => rfl
  | cons c cs ih => simp [eatLit, ih]

theorem dropWS_token (t rest : List Char) (hne : t ≠ [])
    (hws : t.all (fun c => !(wsChar c)) = true) : dropWS (t ++ rest) = t ++ rest := by
  cases t with
  | nil => exact absurd rfl hne
  | cons c cs =>
    have hc : wsChar c = false := by
      simp only [List.all_cons, Bool.and_eq_true, Bool.not_eq_true'] at hws
      exact hws.1
    simp [dropWS, List.dropWhile_cons, hc]

theorem lineOfToks_cons₂ (t t2 : String) (ts : List String) :
    lineOfToks (t :: t2 :: ts) = t ++ " " ++ lineOfToks (t2 :: ts) := rfl

theorem lineOfToks_cons₂_data (t t2 : String) (ts : List String) :
    (lineOfToks (t :: t2 :: ts)).data = t.data ++ (' ' :: (lineOfToks (t2 :: ts)).data) := by
  rw [lineOfToks_cons₂, String.data_append, String.data_append]
  simp

theorem patTail_join (ts : List String)
    (h : ∀ t ∈ ts, t.data ≠ [] ∧ wsFree t = true) (hne : ts ≠ []) :
    patTail ts (' ' :: (lineOfToks ts).data) = some [] := by
  induction ts with
  | nil => exact absurd rfl hne
  | cons t ts2 ih =>
    have ht := h t (List.mem_cons_self t ts2)
    cases ts2 with
    | nil =>
      show patTail [t] (' ' :: t.data) = some []
      unfold patTail
      have hr : reqWS (' ' :: t.data) = some (dropWS t.data) := by
        simp [reqWS, wsChar]
      have hd : dropWS t.data = t.data := by
        have := dropWS_token t.data [] ht.1 ht.2
        simpa using this
      have he : eatLit t.data t.data = some [] := by
        have := eatLit_self_append t.data []
        simpa using this
      simp only [hr, hd, he]
      rfl
    | cons t2 ts3 =>
      rw [lineOfToks_cons₂_data]
      unfold patTail
      have hr : reqWS (' ' :: (t.data ++ (' ' :: (lineOfToks (t2 :: ts3)).data)))
          = some (dropWS (t.data ++ (' ' :: (lineOfToks (t2 :: ts3)).data))) := by
        simp [reqWS, wsChar]
      have hd := dropWS_token t.data (' ' :: (lineOfToks (t2 :: ts3)).data) ht.1 ht.2
      have he := eatLit_self_append t.data (' ' :: (lineOfToks (t2 :: ts3)).data)
      have hj := ih (fun x hx => h x (List.mem_cons_of_mem t hx)) (by simp)
      simp only [hr, hd, he, hj]

theorem patMatch_lineOfToks (ts : List String)
    (h : ∀ t ∈ ts, t.data ≠ [] ∧ wsFree t = true) (hne : ts ≠ []) :
    patMatch false ts EndMode.ws (lineOfToks ts) = true := by
  cases ts with
  | nil => exact absurd rfl hne
  | cons t ts2 =>
    have ht := h t (List.mem_cons_self t ts2)
    unfold patMatch
    cases ts2 with
    | nil =>
      show (match eatLit t.data (lineOfToks [t]).data with
        | none => false
        | some s1 =>
          match patTail [] s1 with
          | none => false
          | some rest => endOk EndMode.ws rest) = true
      have he : eatLit t.data (lineOfToks [t]).data = some [] := by
        show eatLit t.data t.data = some []
        have := eatLit_self_append t.data []
        simpa using this
      simp only [he]
      rfl
    | cons t2 ts3 =>
      show (match eatLit t.data (lineOfToks (t :: t2 :: ts3)).data with
        | none => false
        | some s1 =>
          match patTail (t2 :: ts3) s1 with
          | none => false
          | some rest => endOk EndMode.ws rest) = true
      rw [lineOfToks_cons₂_data]
      have he := eatLit_self_append t.data (' ' :: (lineOfToks (t2 :: ts3)).data)
      have hj := patTail_join (t2 :: ts3) (fun x hx => h x (List.mem_cons_of_mem t hx)) (by simp)
      simp only [he, hj]
      rfl

theorem join_excluded_single (x : String) :
    lineOfToks ["ip", "dhcp", "excluded-address", x] = "ip dhcp excluded-address " ++ x := by
  simp only [lineOfToks, ← String.append_assoc]
  congr 1

theorem join_excluded_double (a b : String) :
    lineOfToks ["ip", "dhcp", "excluded-address", a, b]
      = "ip dhcp excluded-address " ++ a ++ " " ++ b := by
  simp only [lineOfToks, ← String.append_assoc]
  congr 1

theorem join_route (dip msk nh : String) :
    lineOfToks ["ip", "route", dip, msk, nh] = "ip route " ++ dip ++ " " ++ msk ++ " " ++ nh := by
  simp only [lineOfToks, ← String.append_assoc]
  congr 1

theorem join_route_ad (dip msk nh x : String) :
    lineOfToks ["ip", "route", dip, msk, nh, x]
      = "ip route " ++ dip ++ " " ++ msk ++ " " ++ nh ++ " " ++ x := by
  simp only [lineOfToks, ← String.append_assoc]
  congr 1

/-- C10: for every intent with both excluded-address keys, the compiler
emits exactly the canonical line matched by the verifier's assertion
pattern — the single-address form when the two rendered addresses
coincide, the two-address form otherwise, with the same equality
condition on both sides — and verifying a config rendered from the
compiler's own output records the excluded-address check as true. -/
theorem excluded_mirror (c : Configuration) (a b : String)
    (ha : c.first_excluded_addr = some a) (hb : c.last_excluded_addr = some b)
    (ha1 : wsFree a = true) (ha2 : a.data ≠ [])
    (hb1 : wsFree b = true) (hb2 : b.data ≠ []) :
    excludedSectionLines c = [lineOfToks (excludedPatToks a b)]
    ∧ (a = b → excludedSectionLines c = ["ip dhcp excluded-address " ++ a])
    ∧ (a ≠ b → excludedSectionLines c = ["ip dhcp excluded-address " ++ a ++ " " ++ b])
    ∧ excludedChecks c (linesToParsed (excludedSectionLines c))
        = [("dhcp excluded addresses", true)] := by
  have hsec : excludedSectionLines c = [lineOfToks (excludedPatToks a b)] := by
    unfold excludedSectionLines excludedPatToks
    simp only [ha, hb]
    by_cases hab : a = b
    · rw [if_pos hab, if_pos hab, join_excluded_single]
    · rw [if_neg hab, if_neg hab, join_excluded_double]
  have htoks : ∀ t ∈ excludedPatToks a b, t.data ≠ [] ∧ wsFree t = true := by
    intro t ht
    unfold excludedPatToks at ht
    by_cases hab : a = b
    · rw [if_pos hab] at ht
      simp only [List.mem_cons, List.not_mem_nil, or_false] at ht
      rcases ht with rfl | rfl | rfl | rfl
      · exact ⟨by decide, by decide⟩
      · exact ⟨by decide, by decide⟩
      · exact ⟨by decide, by decide⟩
      · exact ⟨ha2, ha1⟩
    · rw [if_neg hab] at ht
      simp only [List.mem_cons, List.not_mem_nil, or_false] at ht
      rcases ht with rfl | rfl | rfl | rfl | rfl
      · exact ⟨by decide, by decide⟩
      · exact ⟨by decide, by decide⟩
      · exact ⟨by decide, by decide⟩
      · exact ⟨ha2, ha1⟩
      · exact ⟨hb2, hb1⟩
  have hnon : excludedPatToks a b ≠ [] := by
    unfold excludedPatToks
    by_cases hab : a = b
    · rw [if_pos hab]; simp
    · rw [if_neg hab]; simp
  refine ⟨hsec, ?_, ?_, ?_⟩
  · intro hab
    rw [hsec]
    unfold excludedPatToks
    rw [if_pos hab, join_excluded_single]
  · intro hab
    rw [hsec]
    unfold excludedPatToks
    rw [if_neg hab, join_excluded_double]
  · rw [hsec]
    unfold excludedChecks
    simp only [ha, hb]
    have hall : allLines (linesToParsed [lineOfToks (excludedPatToks a b)])
        = [lineOfToks (excludedPatToks a b)] := rfl
    rw [hall]
    simp [patMatch_lineOfToks (excludedPatToks a b) htoks hnon]

/-- An intent with a non-degenerate excluded-address range. -/
def excludedIntent : Configuration :=
  { emptyConfiguration with
      first_excluded_addr := some "10.1.1.1", last_excluded_addr := some "10.1.1.100" }

/-- Witness for C10 at a concrete excluded-address intent. -/
theorem excluded_mirror_witness :
    excludedSectionLines excludedIntent
        = [lineOfToks (excludedPatToks "10.1.1.1" "10.1.1.100")]
    ∧ ("10.1.1.1" = "10.1.1.100" →
        excludedSectionLines excludedIntent = ["ip dhcp excluded-address " ++ "10.1.1.1"])
    ∧ ("10.1.1.1" ≠ "10.1.1.100" →
        excludedSectionLines excludedIntent
          = ["ip dhcp excluded-address " ++ "10.1.1.1" ++ " " ++ "10.1.1.100"])
    ∧ excludedChecks excludedIntent (linesToParsed (excludedSectionLines excludedIntent))
        = [("dhcp excluded addresses", true)] :=
  excluded_mirror excludedIntent "10.1.1.1" "10.1.1.100" rfl rfl
    (by decide) (by decide) (by decide) (by decide)

/-- The static-route scenario intent with the default distance given
explicitly. -/
def routeIntentAd1 : Configuration := { routeIntent with admin_distance := some 1 }

/-- C4 counterexample: at the intent {dest_ip:"192.168.2.0/24",
next_hop:"10.0.0.2", admin_distance:1} the compiler emits the route line
with the explicit distance while the verifier's assertion pattern is the
distance-less line, and the emitted line fails verification against a
config rendered from the compiler's own output. -/
theorem static_route_mirror_cex :
    staticSectionLines routeIntentAd1
        = Except.ok ["ip route 192.168.2.0 255.255.255.0 10.0.0.2 1"]
    ∧ lineOfToks (staticPatToks "192.168.2.0" "255.255.255.0" "10.0.0.2" (some 1))
        = "ip route 192.168.2.0 255.255.255.0 10.0.0.2"
    ∧ staticChecks routeIntentAd1
        (linesToParsed ["ip route 192.168.2.0 255.255.255.0 10.0.0.2 1"])
        = Except.ok [("static route 192.168.2.0 255.255.255.0 10.0.0.2 1", false)] := by
  decide

/-- C4 (amended): for every static-route intent whose admin_distance is
absent or different from 1, the compiler emits exactly the canonical line
matched by the verifier's assertion pattern, and verifying a config
rendered from the compiler's own output records the static-route check
as true; when admin_distance equals 1 the two sides diverge (see the
counterexample). -/
theorem static_route_mirror (c : Configuration) (d nh : String) (net : Net)
    (hd : c.dest_ip = some d) (hn : c.next_hop = some nh)
    (had : c.admin_distance ≠ some 1)
    (hp : parseNet d false = Except.ok net)
    (hnh1 : wsFree nh = true) (hnh2 : nh.data ≠ []) :
    staticSectionLines c
      = Except.ok [lineOfToks (staticPatToks (ipToStr net.addr) (ipToStr (maskOfLen net.pLen))
          nh c.admin_distance)]
    ∧ staticChecks c (linesToParsed [lineOfToks (staticPatToks (ipToStr net.addr)
          (ipToStr (maskOfLen net.pLen)) nh c.admin_distance)])
      = Except.ok [(staticKey (ipToStr net.addr) (ipToStr (maskOfLen net.pLen)) nh
          c.admin_distance, true)] := by
  have htoks : ∀ t ∈ staticPatToks (ipToStr net.addr) (ipToStr (maskOfLen net.pLen)) nh
      c.admin_distance, t.data ≠ [] ∧ wsFree t = true := by
    intro t ht
    cases hads : c.admin_distance with
    | none =>
      rw [hads] at ht
      unfold staticPatToks at ht
      simp only [List.mem_cons, List.not_mem_nil, or_false] at ht
      rcases ht with rfl | rfl | rfl | rfl | rfl
      · exact ⟨by decide, by decide⟩
      · exact ⟨by decide, by decide⟩
      · exact ⟨ipToStr_ne_nil _, ipToStr_wsFree _⟩
      · exact ⟨ipToStr_ne_nil _, ipToStr_wsFree _⟩
      · exact ⟨hnh2, hnh1⟩
    | some ad =>
      rw [hads] at ht
      have hne : ¬(ad = 1) := by
        intro h1
        exact had (by rw [hads, h1])
      unfold staticPatToks at ht
      simp only [if_neg hne, List.mem_cons, List.not_mem_nil, or_false] at ht
      rcases ht with rfl | rfl | rfl | rfl | rfl | rfl
      · exact ⟨by decide, by decide⟩
      · exact ⟨by decide, by decide⟩
      · exact ⟨ipToStr_ne_nil _, ipToStr_wsFree _⟩
      · exact ⟨ipToStr_ne_nil _, ipToStr_wsFree _⟩
      · exact ⟨hnh2, hnh1⟩
      · exact ⟨natStr_ne_nil _, natStr_wsFree _⟩
  have hnon : staticPatToks (ipToStr net.addr) (ipToStr (maskOfLen net.pLen)) nh
      c.admin_distance ≠ [] := by
    cases hads : c.admin_distance with
    | none => unfold staticPatToks; simp
    | some ad =>
      unfold staticPatToks
      by_cases h1 : ad = 1 <;> simp [h1]
  constructor
  · cases hads : c.admin_distance with
    | none =>
      unfold staticSectionLines staticPatToks
      simp only [hd, hn, hp, hads]
      rw [join_route]
    | some ad =>
      have hne : ¬(ad = 1) := by
        intro h1
        exact had (by rw [hads, h1])
      unfold staticSectionLines staticPatToks
      simp only [hd, hn, hp, hads]
      rw [if_neg hne, join_route_ad]
  · unfold staticChecks
    simp only [hd, hn, hp]
    have hall : allLines (linesToParsed [lineOfToks (staticPatToks (ipToStr net.addr)
        (ipToStr (maskOfLen net.pLen)) nh c.admin_distance)])
        = [lineOfToks (staticPatToks (ipToStr net.addr) (ipToStr (maskOfLen net.pLen)) nh
            c.admin_distance)] := rfl
    rw [hall]
    simp [patMatch_lineOfToks _ htoks hnon]

/-- Witness for the amended C4 at the distance-less scenario intent. -/
theorem static_route_mirror_witness :
    staticSectionLines routeIntent
        = Except.ok [lineOfToks (staticPatToks (ipToStr (3232236032 : Nat))
            (ipToStr (maskOfLen 24)) "10.0.0.2" none)]
    ∧ staticChecks routeIntent (linesToParsed [lineOfToks (staticPatToks
            (ipToStr (3232236032 : Nat)) (ipToStr (maskOfLen 24)) "10.0.0.2" none)])
        = Except.ok [(staticKey (ipToStr (3232236032 : Nat)) (ipToStr (maskOfLen 24))
            "10.0.0.2" none, true)] :=
  static_route_mirror routeIntent "192.168.2.0/24" "10.0.0.2" ⟨3232236032, 24⟩
    rfl rfl (by decide) (by decide) (by decide) (by decide)

/-! ## Absent-anchor behavior of the verifier (C7) -/

/-- A description-change intent for one interface. -/
def descIntent : Configuration :=
  { emptyConfiguration with iface := some "GigabitEthernet0/1", description := some "uplink" }

/-- An intent listing one interface with an `is_passive` key, for OSPF
process 10. -/
def passiveIntent : Configuration :=
  { emptyConfiguration with
      iface_list := some ["GigabitEthernet0/1"],
      ifaceParams := [("GigabitEthernet0/1", { emptyIfaceParams with is_passive := some true })],
      process_id := some 10 }

/-- A parsed view holding the interface block but no `router ospf` block. -/
def parsedIfaceOnly : ParsedConfig :=
  [⟨"interface GigabitEthernet0/1", [" ip address 10.0.0.1 255.255.255.0"]⟩]

/-- C7 counterexample: (a) with the interface anchor absent from the
parsed view the verifier records no entry at all — in particular not a
false for the requested description sub-check — rather than false for
every sub-check; (b) with a passive interface listed and present but the
`router ospf` anchor absent, the verifier raises (the source indexes
`find_objects(...)[0]` unguarded, an IndexError) instead of recording
false. -/
theorem verify_absent_anchor_cex :
    Router.verify_config_applied sampleRouter descIntent [] = Except.ok []
    ∧ Router.verify_config_applied sampleRouter passiveIntent parsedIfaceOnly
        = Except.error "IndexError: list index out of range" := by
  decide

theorem ifaceListChecksLoop_absent (c : Configuration) (parsed : ParsedConfig) :
    ∀ (ns : List String) (entries : List (String × Bool)) (passive : List String),
      (∀ n ∈ ns, findIfaceObjs parsed n = []) →
      ifaceListChecksLoop c parsed ns entries passive = Except.ok (entries, passive) := by
  intro ns
  induction ns with
  | nil => intro e p _; rfl
  | cons n rest ih =>
    intro e p hall
    unfold ifaceListChecksLoop
    simp only [hall n (List.mem_cons_self n rest), List.head?_nil]
    exact ih e p (fun x hx => hall x (List.mem_cons_of_mem n hx))

/-- C7 (amended): when the anchor of a requested feature is absent from
the parsed view, the verifier does not raise in the anchor lookups and
records no entry for the feature's sub-checks; only the explicit
presence booleans are recorded false (the subinterface presence entry,
the helper-address entry under its underscore key, the aggregate
`dhcp pool` entry, and the `ospf <pid> present` entry); listed tuning
interfaces absent from the view are skipped entirely. The
passive-interface aggregation with a present interface but an absent
OSPF process block raises instead (see the counterexample). -/
theorem verify_absent_anchor (c : Configuration) (parsed : ParsedConfig) :
    (∀ name, c.iface = some name → c.subiface_num = none →
      findIfaceObjs parsed name = [] → ifaceSectionChecks c parsed = [])
    ∧ (∀ name sub, c.iface = some name → c.subiface_num = some sub →
        findIfaceObjs parsed (name ++ "." ++ natStr sub) = [] →
        ifaceSectionChecks c parsed
          = [("iface " ++ (name ++ "." ++ natStr sub) ++ " present", false)])
    ∧ (∀ h name, c.helper_address = some h → c.iface = some name →
        findIfaceObjs parsed name = [] →
        helperChecks c parsed = [("dhcp_helper address " ++ name, false)])
    ∧ (∀ pool ns gw net, c.pool_name = some pool → c.pool_network = some ns →
        c.pool_gateway_ip = some gw → parseNet ns false = Except.ok net →
        findPoolObjs parsed pool = [] →
        poolChecks c parsed = Except.ok [("dhcp pool", false)])
    ∧ (∀ pid, c.process_id = some pid → findOspfObjs parsed pid = [] →
        ospfChecks c parsed = Except.ok [("ospf " ++ natStr pid ++ " present", false)])
    ∧ (∀ names, c.iface_list = some names →
        (∀ n ∈ names, findIfaceObjs parsed n = []) →
        ifaceListChecks c parsed = Except.ok []) := by
  refine ⟨?_, ?_, ?_, ?_, ?_, ?_⟩
  · intro name h1 h2 h3
    unfold ifaceSectionChecks
    simp [h1, h2, h3]
  · intro name sub h1 h2 h3
    unfold ifaceSectionChecks
    simp [h1, h2, h3]
  · intro h name h1 h2 h3
    unfold helperChecks
    simp [h1, h2, h3]
  · intro pool ns gw net h1 h2 h3 h4 h5
    unfold poolChecks
    simp [h1, h2, h3, h4, h5]
  · intro pid h1 h2
    unfold ospfChecks
    simp [h1, h2]
  · intro names h1 h2
    unfold ifaceListChecks
    simp only [h1, ifaceListChecksLoop_absent c parsed names [] [] h2]
    simp

/-- An intent requesting several features whose anchors are all absent
from an empty parsed view. -/
def absentAnchorIntent : Configuration :=
  { emptyConfiguration with
      iface := some "GigabitEthernet0/1", description := some "uplink",
      helper_address := some "10.9.9.9",
      pool_name := some "CORP", pool_network := some "10.1.1.0/24",
      pool_gateway_ip := some "10.1.1.1",
      process_id := some 7,
      iface_list := some ["GigabitEthernet0/2"] }

/-- Witness for the amended C7 at a concrete intent and an empty parsed
view. -/
theorem verify_absent_anchor_witness :
    ifaceSectionChecks absentAnchorIntent [] = []
    ∧ helperChecks absentAnchorIntent []
        = [("dhcp_helper address " ++ "GigabitEthernet0/1", false)]
    ∧ poolChecks absentAnchorIntent [] = Except.ok [("dhcp pool", false)]
    ∧ ospfChecks absentAnchorIntent []
        = Except.ok [("ospf " ++ natStr 7 ++ " present", false)]
    ∧ ifaceListChecks absentAnchorIntent [] = Except.ok [] :=
  ⟨(verify_absent_anchor absentAnchorIntent []).1 "GigabitEthernet0/1" rfl rfl rfl,
   (verify_absent_anchor absentAnchorIntent []).2.2.1 "10.9.9.9" "GigabitEthernet0/1" rfl rfl rfl,
   (verify_absent_anchor absentAnchorIntent []).2.2.2.1 "CORP" "10.1.1.0/24" "10.1.1.1"
     ⟨167837952, 24⟩ rfl rfl rfl (by decide) rfl,
   (verify_absent_anchor absentAnchorIntent []).2.2.2.2.1 7 rfl rfl,
   (verify_absent_anchor absentAnchorIntent []).2.2.2.2.2 ["GigabitEthernet0/2"] rfl
     (by intro n hn; simp at hn; subst hn; rfl)⟩
